import Mathlib

/-!
Shallow embedding of the `quake3-native-vm` crate: the `qagame` opcode
dispatcher (`src/src/qagame.rs`), the singleton/trampoline machinery of the
`native_vm!` macro (`src/src/lib.rs`), and the library proxy example
(`src/examples/proxy.rs`).

Machine integers (`c_int`, `intptr_t`) are modelled as `Int`; none of the
verified properties depend on fixed-width wrap-around.  Side-effecting trait
method invocations are modelled by explicit event traces: a dispatcher call
returns the list of typed `Module` method invocations it performed together
with its outcome (normal integer return, or one of the two panic paths of the
source).
-/

namespace Quake3NativeVM

/-- Functions exported by the `qagame` module: the enum `Exports` of
`src/src/qagame.rs` (discriminants `GAME_INIT = 0` through
`BOTAI_START_FRAME = 10`, fixed by the engine ABI). -/
inductive Exports
  | GAME_INIT
  | GAME_SHUTDOWN
  | GAME_CLIENT_CONNECT
  | GAME_CLIENT_BEGIN
  | GAME_CLIENT_USERINFO_CHANGED
  | GAME_CLIENT_DISCONNECT
  | GAME_CLIENT_COMMAND
  | GAME_CLIENT_THINK
  | GAME_RUN_FRAME
  | GAME_CONSOLE_COMMAND
  | BOTAI_START_FRAME
  deriving DecidableEq

/-- The `#[repr(C)]` discriminant of each `Exports` variant, as assigned in
the source enum declaration. -/
def Exports.discriminant : Exports → Int
  | .GAME_INIT => 0
  | .GAME_SHUTDOWN => 1
  | .GAME_CLIENT_CONNECT => 2
  | .GAME_CLIENT_BEGIN => 3
  | .GAME_CLIENT_USERINFO_CHANGED => 4
  | .GAME_CLIENT_DISCONNECT => 5
  | .GAME_CLIENT_COMMAND => 6
  | .GAME_CLIENT_THINK => 7
  | .GAME_RUN_FRAME => 8
  | .GAME_CONSOLE_COMMAND => 9
  | .BOTAI_START_FRAME => 10

/-- The `TryFrom<c_int> for Exports` impl of `src/src/qagame.rs` lines 70-80:
only `0` and `1` are parsed; every other command yields
`Err("Unknown command")`. -/
def Exports.tryFrom (cmd : Int) : Except String Exports :=
  if cmd = 0 then .ok .GAME_INIT
  else if cmd = 1 then .ok .GAME_SHUTDOWN
  else .error "Unknown command"

/-- One typed `qagame::Module` trait-method invocation, recorded as an event.
Constructors mirror the trait methods and their (reinterpreted) parameters. -/
inductive Call
  | init (level_time random_seed : Int) (restart : Bool)
  | shutdown (restart : Bool)
  | clientConnect (client_number : Int) (first_time is_bot : Bool)
  | clientThink (client_number : Int)
  | clientUserinfoChanged (client_number : Int)
  | clientDisconnect (client_number : Int)
  | clientBegin (client_number : Int)
  | clientCommand (client_number : Int)
  | runFrame (level_time : Int)
  | consoleCommand
  | botaiStartFrame (level_time : Int)
  deriving DecidableEq

/-- Rust `{:?}` (Debug) formatting of a `&str`: the string wrapped in double
quotes.  (None of the strings in this development need escape sequences.) -/
def rustDebugStr (s : String) : String := "\"" ++ s ++ "\""

/-- Outcome of one `ModuleWrapper::vm_main` call: a normal integer return,
the `todo!("Game command {:?} not implemented", command)` panic of the
unreachable `Ok(command)` catch-all arm, or the
`panic!("Unknown game command {:?}", command)` of the `Err(command)` arm
(note: in the source the `Err` binder `command` is the static error string,
not the numeric opcode). -/
inductive Outcome
  | ret (value : Int)
  | todoNotImplemented (command : Exports)
  | panicked (msg : String)
  deriving DecidableEq

/-- True exactly on the "known opcode, not yet handled" `todo!` diagnostic. -/
def Outcome.isNotImplementedDiag : Outcome → Bool
  | .todoNotImplemented _ => true
  | _ => false

/-- The module author's typed implementation (trait `qagame::Module`).
Unit-returning methods are observable only through their invocation events
(recorded by the wrapper in the `Call` trace); the three value-returning
methods are modelled by their result functions. -/
structure Module where
  client_connect : Int → Bool → Bool → Int
  console_command : Bool
  botai_start_frame : Int → Bool

/-- The `ModuleWrapper` struct generated by the `game_module!` macro, holding
the boxed typed module. -/
structure ModuleWrapper where
  module : Module

/-- The `ModuleWrapper::vm_main` dispatcher generated by `game_module!`
(`src/src/qagame.rs` lines 164-236), returning the trace of typed `Module`
method invocations it performed together with its outcome.  The match arms
mirror the source exactly; note that the source decodes the command through
`Exports::try_from`, so only the `GAME_INIT` and `GAME_SHUTDOWN` arms are
reachable, and the source's `Ok(command) => todo!(...)` catch-all (dead code
there, since all eleven variants have explicit arms) has no counterpart here.
Arguments `arg3` through `arg11` are bound with `_`-prefixed names in the
source and never used. -/
def ModuleWrapper.vm_main (self : ModuleWrapper)
    (command arg0 arg1 arg2 _arg3 _arg4 _arg5 _arg6 _arg7 _arg8 _arg9 _arg10 _arg11 : Int) :
    List Call × Outcome :=
  match Exports.tryFrom command with
  | .ok .GAME_INIT => ([.init arg0 arg1 (arg2 != 0)], .ret 0)
  | .ok .GAME_SHUTDOWN => ([.shutdown (arg0 != 0)], .ret 0)
  | .ok .GAME_CLIENT_CONNECT =>
      ([.clientConnect arg0 (arg1 != 0) (arg2 != 0)],
        .ret (self.module.client_connect arg0 (arg1 != 0) (arg2 != 0)))
  | .ok .GAME_CLIENT_THINK => ([.clientThink arg0], .ret 0)
  | .ok .GAME_CLIENT_USERINFO_CHANGED => ([.clientUserinfoChanged arg0], .ret 0)
  | .ok .GAME_CLIENT_DISCONNECT => ([.clientDisconnect arg0], .ret 0)
  | .ok .GAME_CLIENT_BEGIN => ([.clientBegin arg0], .ret 0)
  | .ok .GAME_CLIENT_COMMAND => ([.clientCommand arg0], .ret 0)
  | .ok .GAME_RUN_FRAME => ([.runFrame arg0], .ret 0)
  | .ok .GAME_CONSOLE_COMMAND =>
      ([.consoleCommand], .ret (if self.module.console_command then 1 else 0))
  | .ok .BOTAI_START_FRAME =>
      ([.botaiStartFrame arg0], .ret (if self.module.botai_start_frame arg0 then 1 else 0))
  | .error e => ([], .panicked ("Unknown game command " ++ rustDebugStr e))

/-- Outcome of a call to the exported `vmMain` trampoline of the `native_vm!`
macro: either the singleton slot was still `None` and the
`data.as_ref().unwrap()` panicked, or the call was dispatched to the stored
instance's `vm_main`. -/
inductive EntryOutcome
  | unwrapNonePanic
  | dispatched (result : List Call × Outcome)

/-- The exported `dllEntry` of the `native_vm!` macro (`src/src/lib.rs` lines
193-196): writes the freshly constructed instance into the singleton slot
(overwriting whatever was there). -/
def dllEntry (_slot : Option ModuleWrapper) (inst : ModuleWrapper) :
    Option ModuleWrapper :=
  some inst

/-- The exported `vmMain` of the `native_vm!` macro (`src/src/lib.rs` lines
201-220): reads the singleton slot, panics via `Option::unwrap` if it is
still `None`, otherwise forwards the command and all twelve arguments
verbatim to the stored instance's `vm_main`. -/
def vmMain (slot : Option ModuleWrapper)
    (command arg0 arg1 arg2 arg3 arg4 arg5 arg6 arg7 arg8 arg9 arg10 arg11 : Int) :
    EntryOutcome :=
  match slot with
  | none => .unwrapNonePanic
  | some w =>
      .dispatched
        (w.vm_main command arg0 arg1 arg2 arg3 arg4 arg5 arg6 arg7 arg8 arg9 arg10 arg11)

/-- System traps provided by the engine: the enum `Imports` of
`src/src/qagame.rs` (`G_PRINT = 0`, `G_ERROR = 1`). -/
inductive Imports
  | G_PRINT
  | G_ERROR
  deriving DecidableEq

/-- The `From<Imports> for isize` impl of `src/src/qagame.rs` lines 29-36. -/
def Imports.toIsize : Imports → Int
  | .G_PRINT => 0
  | .G_ERROR => 1

/-- The engine's syscall callback (`pub type Syscall` of `src/src/lib.rs`),
modelled on the trap code and the marshalled message payload; `none` models a
call out of which the host performs a non-local jump, never returning control
to the module. -/
def SyscallHost := Int → List UInt8 → Option Int

/-- Rust `CString::new`: fails (returns `none`) exactly when the input bytes
contain a NUL. -/
def cstringNew (bytes : List UInt8) : Option (List UInt8) :=
  if bytes.contains 0 then none else some bytes

/-- The `qagame::Syscalls` wrapper struct holding the engine callback. -/
structure Syscalls where
  syscall : SyscallHost

/-- Outcome of one `Syscalls::error` call: the `CString::new(text).unwrap()`
panic on a NUL byte (the engine syscall is then never invoked), or an
invocation of the engine syscall with the given trap code, recording whether
the host returned control to the module afterwards. -/
inductive ErrorOutcome
  | nulPanic
  | invoked (code : Int) (returnedToCaller : Bool)
  deriving DecidableEq

/-- Whether the `Syscalls::error` call returned control to its caller
normally (a NUL panic unwinds, a non-returning host call never comes back). -/
def ErrorOutcome.returnsControl : ErrorOutcome → Bool
  | .nulPanic => false
  | .invoked _ r => r

/-- `Syscalls::error` (`src/src/qagame.rs` lines 96-99): converts the text to
a `CString` (unwrap panics on an interior NUL), then invokes the engine
syscall with code `G_ERROR`. -/
def Syscalls.error (self : Syscalls) (text : List UInt8) : ErrorOutcome :=
  match cstringNew text with
  | none => .nulPanic
  | some msg =>
      match self.syscall (Imports.toIsize .G_ERROR) msg with
      | none => .invoked (Imports.toIsize .G_ERROR) false
      | some _ => .invoked (Imports.toIsize .G_ERROR) true

/-- Type of the secondary library's resolved `vmMain` symbol (the `VmMain`
type alias of `src/src/lib.rs`): thirteen integers in, one integer out. -/
def VmMainFn :=
  Int → Int → Int → Int → Int → Int → Int → Int → Int → Int → Int → Int → Int → Int

/-- The secondary shared library as seen by the proxy after loading: whether
its `dllEntry` symbol resolves, and its resolved `vmMain` symbol if present. -/
structure SecondaryLibrary where
  dllEntrySym : Bool
  vmMainSym : Option VmMainFn

/-- Observable side effect of proxy construction: the secondary library's
resolved `dllEntry` was invoked with the given syscall callback handle.
Handles are modelled as opaque integers (function-pointer identity). -/
inductive ProxyEvent
  | secondaryDllEntry (syscall : Int)
  deriving DecidableEq

/-- The `ProxyModule` struct of `src/examples/proxy.rs`: the rented `vmMain`
symbol of the secondary library (the rental bundles it with the library
handle; here only the callable value matters). -/
structure ProxyModule where
  proxy_vm_main : VmMainFn

/-- Outcome of `ProxyModule::dll_entry`: panic on a missing `dllEntry` symbol
(`unwrap` of the failed `lib.get`), panic on a failed `vmMain` rent (after
the secondary `dllEntry` was already invoked), or a constructed proxy
together with the trace of secondary-library calls made during
construction. -/
inductive ProxyInit
  | panickedUnwrapNone
  | panickedRent (events : List ProxyEvent)
  | ok (events : List ProxyEvent) (proxy : ProxyModule)

/-- `ProxyModule::dll_entry` (`src/examples/proxy.rs` lines 26-40): resolve
the secondary library's `dllEntry` symbol (unwrap), invoke it with the
syscall handle the proxy itself received, then rent the `vmMain` symbol and
store it in the constructed proxy. -/
def ProxyModule.dll_entry (lib : SecondaryLibrary) (syscall : Int) : ProxyInit :=
  if lib.dllEntrySym then
    match lib.vmMainSym with
    | some f => .ok [.secondaryDllEntry syscall] { proxy_vm_main := f }
    | none => .panickedRent [.secondaryDllEntry syscall]
  else .panickedUnwrapNone

/-- `ProxyModule::vm_main` (`src/examples/proxy.rs` lines 42-61): forward the
command and all twelve arguments to the rented `vmMain` symbol and return its
result. -/
def ProxyModule.vm_main (self : ProxyModule)
    (command arg0 arg1 arg2 arg3 arg4 arg5 arg6 arg7 arg8 arg9 arg10 arg11 : Int) : Int :=
  self.proxy_vm_main command arg0 arg1 arg2 arg3 arg4 arg5 arg6 arg7 arg8 arg9 arg10 arg11

/-- A concrete secondary `vmMain` used by the proxy witnesses. -/
def fW : VmMainFn :=
  fun c a0 _ _ _ _ _ _ _ _ _ _ _ => c + a0

/-- A concrete, fully resolvable secondary library used by the proxy
witnesses. -/
def libW : SecondaryLibrary :=
  { dllEntrySym := true, vmMainSym := some fW }

/-- C2: dispatching `GAME_INIT` (command 0) invokes `Module::init` exactly
once with `(arg0, arg1, arg2 != 0)` and returns 0, and dispatching
`GAME_SHUTDOWN` (command 1) invokes `Module::shutdown` exactly once with
`(arg0 != 0)` and returns 0, for every module and every argument vector. -/
theorem c2_init_shutdown_dispatch (w : ModuleWrapper)
    (a0 a1 a2 a3 a4 a5 a6 a7 a8 a9 a10 a11 : Int) :
    w.vm_main 0 a0 a1 a2 a3 a4 a5 a6 a7 a8 a9 a10 a11
      = ([Call.init a0 a1 (a2 != 0)], Outcome.ret 0)
    ∧ w.vm_main 1 a0 a1 a2 a3 a4 a5 a6 a7 a8 a9 a10 a11
      = ([Call.shutdown (a0 != 0)], Outcome.ret 0) :=
  ⟨rfl, rfl⟩

/-- C1 (behaviour at the failing input): opcode 2 is the ABI number of
`GAME_CLIENT_CONNECT`, yet `Exports::try_from` rejects it, so
`vm_main 2 _ 7 _ ...` performs no typed `Module` method invocation at all
(empty call trace) and panics, instead of invoking `client_connect` with
`first_time = true` as the claim requires. -/
theorem c1_client_connect_opcode_panics (w : ModuleWrapper)
    (a0 a2 a3 a4 a5 a6 a7 a8 a9 a10 a11 : Int) :
    Exports.discriminant .GAME_CLIENT_CONNECT = 2
    ∧ Exports.tryFrom 2 = Except.error "Unknown command"
    ∧ w.vm_main 2 a0 7 a2 a3 a4 a5 a6 a7 a8 a9 a10 a11
        = ([], Outcome.panicked "Unknown game command \"Unknown command\"") :=
  ⟨rfl, rfl, rfl⟩

/-- C3 (behaviour at the failing inputs): commands 999 and -5 are both
entirely outside the closed opcode set 0..10; `vm_main` does panic on them,
but the `Err(command)` binder shadows the numeric command with the static
error string, so the diagnostic is one and the same constant message for
both — it does not identify the offending opcode value. -/
theorem c3_unknown_opcode_diag_constant (w : ModuleWrapper)
    (a0 a1 a2 a3 a4 a5 a6 a7 a8 a9 a10 a11 : Int) :
    w.vm_main 999 a0 a1 a2 a3 a4 a5 a6 a7 a8 a9 a10 a11
      = ([], Outcome.panicked "Unknown game command \"Unknown command\"")
    ∧ w.vm_main (-5) a0 a1 a2 a3 a4 a5 a6 a7 a8 a9 a10 a11
      = ([], Outcome.panicked "Unknown game command \"Unknown command\"") :=
  ⟨rfl, rfl⟩

/-- C4 (behaviour at the failing input): opcode 5 is the ABI number of
`GAME_CLIENT_DISCONNECT`, i.e. inside the closed set, yet dispatching it
produces exactly the same outcome — the same panic with the same
diagnostic — as dispatching the genuinely unknown opcode 999; moreover the
"known opcode, not yet handled" `todo!` diagnostic is unreachable for every
command, so the two failure classes are not distinguishable. -/
theorem c4_unwired_vs_unknown_indistinct (w : ModuleWrapper)
    (cmd a0 a1 a2 a3 a4 a5 a6 a7 a8 a9 a10 a11 : Int) :
    Exports.discriminant .GAME_CLIENT_DISCONNECT = 5
    ∧ w.vm_main 5 a0 a1 a2 a3 a4 a5 a6 a7 a8 a9 a10 a11
        = w.vm_main 999 a0 a1 a2 a3 a4 a5 a6 a7 a8 a9 a10 a11
    ∧ Outcome.isNotImplementedDiag
        (w.vm_main cmd a0 a1 a2 a3 a4 a5 a6 a7 a8 a9 a10 a11).2 = false := by
  refine ⟨rfl, rfl, ?_⟩
  unfold ModuleWrapper.vm_main Exports.tryFrom
  by_cases h0 : cmd = 0
  · simp [h0, Outcome.isNotImplementedDiag]
  · by_cases h1 : cmd = 1
    · simp [h0, h1, Outcome.isNotImplementedDiag]
    · simp [h0, h1, Outcome.isNotImplementedDiag]

/-- C5: calling the exported `vmMain` trampoline while the singleton slot is
still uninitialized (before `dllEntry` has run) panics on the `Option`
unwrap for every command and argument vector — it never dispatches, so no
integer is ever returned to the host. -/
theorem c5_vmMain_before_init_panics
    (cmd a0 a1 a2 a3 a4 a5 a6 a7 a8 a9 a10 a11 : Int) :
    vmMain none cmd a0 a1 a2 a3 a4 a5 a6 a7 a8 a9 a10 a11
      = EntryOutcome.unwrapNonePanic :=
  rfl

/-- C6: the dispatcher's trace and result depend only on the command and the
leading arguments the opcode uses: for every command, changing arguments 3
through 11 changes nothing, and for `GAME_SHUTDOWN` (which uses only arg0)
changing arguments 1 and 2 changes nothing either. -/
theorem c6_trailing_args_ignored (w : ModuleWrapper)
    (cmd a0 a1 a2 t3 t4 t5 t6 t7 t8 t9 t10 t11 u3 u4 u5 u6 u7 u8 u9 u10 u11 b1 b2 : Int) :
    w.vm_main cmd a0 a1 a2 t3 t4 t5 t6 t7 t8 t9 t10 t11
      = w.vm_main cmd a0 a1 a2 u3 u4 u5 u6 u7 u8 u9 u10 u11
    ∧ w.vm_main 1 a0 a1 a2 t3 t4 t5 t6 t7 t8 t9 t10 t11
      = w.vm_main 1 a0 b1 b2 t3 t4 t5 t6 t7 t8 t9 t10 t11 :=
  ⟨rfl, rfl⟩

/-- C7: a proxy constructed from a secondary library whose `vmMain` symbol
resolved to `f` forwards every dispatch verbatim: for every opcode and every
twelve arguments, `ProxyModule::vm_main` returns exactly what the secondary
library's `vmMain` returns on the same thirteen integers. -/
theorem c7_proxy_forwards (lib : SecondaryLibrary) (f : VmMainFn)
    (ev : List ProxyEvent) (p : ProxyModule) (cb : Int)
    (hVm : lib.vmMainSym = some f)
    (hOk : ProxyModule.dll_entry lib cb = ProxyInit.ok ev p)
    (command a0 a1 a2 a3 a4 a5 a6 a7 a8 a9 a10 a11 : Int) :
    p.vm_main command a0 a1 a2 a3 a4 a5 a6 a7 a8 a9 a10 a11
      = f command a0 a1 a2 a3 a4 a5 a6 a7 a8 a9 a10 a11 := by
  unfold ProxyModule.dll_entry at hOk
  by_cases hd : lib.dllEntrySym
  · rw [if_pos hd, hVm] at hOk
    obtain ⟨-, hp⟩ := ProxyInit.ok.inj hOk
    subst hp
    rfl
  · rw [if_neg hd] at hOk
    exact absurd hOk (by simp)

/-- Witness for C7 at a concrete library, callback and argument vector. -/
theorem c7_proxy_forwards_witness :
    Quake3NativeVM.libW.vmMainSym = some fW
    ∧ ProxyModule.dll_entry libW 7
        = ProxyInit.ok [ProxyEvent.secondaryDllEntry 7] { proxy_vm_main := fW }
    ∧ ProxyModule.vm_main { proxy_vm_main := fW } 3 4 5 6 0 0 0 0 0 0 0 0 0
        = fW 3 4 5 6 0 0 0 0 0 0 0 0 0 :=
  ⟨rfl, rfl,
    c7_proxy_forwards libW fW [ProxyEvent.secondaryDllEntry 7]
      { proxy_vm_main := fW } 7 rfl rfl 3 4 5 6 0 0 0 0 0 0 0 0 0⟩

/-- C8: constructing a proxy from a secondary library whose two ABI symbols
both resolve produces a proxy whose construction trace is exactly one
invocation of the secondary library's `dllEntry`, carrying the very syscall
handle the proxy itself received, and whose stored dispatch symbol is the
library's resolved `vmMain`. -/
theorem c8_proxy_dll_entry_once (lib : SecondaryLibrary) (f : VmMainFn) (cb : Int)
    (hDll : lib.dllEntrySym = true) (hVm : lib.vmMainSym = some f) :
    ProxyModule.dll_entry lib cb
      = ProxyInit.ok [ProxyEvent.secondaryDllEntry cb] { proxy_vm_main := f } := by
  unfold ProxyModule.dll_entry
  rw [hDll, hVm]
  simp

/-- Witness for C8 at a concrete library and callback handle. -/
theorem c8_proxy_dll_entry_once_witness :
    Quake3NativeVM.libW.dllEntrySym = true
    ∧ Quake3NativeVM.libW.vmMainSym = some fW
    ∧ ProxyModule.dll_entry libW 42
        = ProxyInit.ok [ProxyEvent.secondaryDllEntry 42] { proxy_vm_main := fW } :=
  ⟨rfl, rfl, c8_proxy_dll_entry_once libW fW 42 rfl rfl⟩

/-- C9: under the host contract that the engine syscall never returns from a
`G_ERROR` trap (the host performs a non-local jump), `Syscalls::error` never
returns control to its caller, for every message: it either panics on a NUL
byte before reaching the syscall, or enters the non-returning syscall. -/
theorem c9_error_diverges (host : SyscallHost) (text : List UInt8)
    (hHost : ∀ msg, host (Imports.toIsize .G_ERROR) msg = none) :
    ((Syscalls.mk host).error text).returnsControl = false := by
  unfold Syscalls.error cstringNew
  by_cases h : text.contains 0
  · rw [if_pos h]
    rfl
  · rw [if_neg h]
    show ErrorOutcome.returnsControl
      (match host (Imports.toIsize .G_ERROR) text with
        | none => ErrorOutcome.invoked (Imports.toIsize .G_ERROR) false
        | some _ => ErrorOutcome.invoked (Imports.toIsize .G_ERROR) true) = false
    rw [hHost text]
    rfl

/-- Witness for C9: a concrete host that never returns from any trap, and a
concrete message. -/
theorem c9_error_diverges_witness :
    (∀ msg, (fun _ _ => none : SyscallHost) (Imports.toIsize .G_ERROR) msg = none)
    ∧ ((Syscalls.mk (fun _ _ => none)).error [72, 105]).returnsControl = false :=
  ⟨fun _ => rfl, c9_error_diverges (fun _ _ => none) [72, 105] (fun _ => rfl)⟩

/-- C10: for every host and message, a message containing a NUL byte makes
`Syscalls::error` panic in the `CString` conversion before the engine
syscall is ever invoked, and a NUL-free message makes it invoke the engine
syscall with code `G_ERROR` = 1. -/
theorem c10_error_nul_and_code (host : SyscallHost) (text : List UInt8) :
    (text.contains 0 = true → (Syscalls.mk host).error text = ErrorOutcome.nulPanic)
    ∧ (text.contains 0 = false →
        (Syscalls.mk host).error text
          = ErrorOutcome.invoked 1 (host 1 text).isSome) := by
  constructor
  · intro h
    unfold Syscalls.error cstringNew
    rw [if_pos h]
  · intro h
    unfold Syscalls.error cstringNew
    rw [h]
    show (match host 1 text with
      | none => ErrorOutcome.invoked (Imports.toIsize .G_ERROR) false
      | some _ => ErrorOutcome.invoked (Imports.toIsize .G_ERROR) true)
      = ErrorOutcome.invoked 1 (host 1 text).isSome
    cases host 1 text <;> rfl

/-- Witness for C10: a concrete host, one message with a NUL byte and one
without. -/
theorem c10_error_nul_and_code_witness :
    (([65, 0, 66] : List UInt8).contains 0 = true
      ∧ (Syscalls.mk (fun _ _ => some 0)).error [65, 0, 66] = ErrorOutcome.nulPanic)
    ∧ (([65, 66] : List UInt8).contains 0 = false
      ∧ (Syscalls.mk (fun _ _ => some 0)).error [65, 66] = ErrorOutcome.invoked 1 true) :=
  ⟨⟨by decide, (c10_error_nul_and_code (fun _ _ => some 0) [65, 0, 66]).1 (by decide)⟩,
    ⟨by decide, (c10_error_nul_and_code (fun _ _ => some 0) [65, 66]).2 (by decide)⟩⟩

end Quake3NativeVM
